import Mathlib

/-!
Shallow embedding of `eve_link_manager.py` (EVE-NG Link Manager).

External effects (the `subprocess.run` invocations and the `time.sleep`
calls) are modelled by an event trace threaded through each function,
together with a `world` oracle that decides the outcome of the n-th external
command invocation made so far.  A Python exception that a function does not
catch is modelled by `Except.error` (carrying `str(e)`); a value the function
returns normally is wrapped in `Except.ok`.  Every stateful function returns
the pair `(result, trace)` so that a caught exception still preserves the
externally visible calls made before it was raised.
-/

/-- Outcome of one `subprocess.run(cmd, check=True)` invocation: normal
completion, a `subprocess.CalledProcessError` (non-zero exit status under
`check=True`), or any other exception (`OSError`, `FileNotFoundError`, ...),
the latter two carrying the text `str(e)`. -/
inductive CmdOutcome where
  | ok : CmdOutcome
  | cpe : String → CmdOutcome
  | exn : String → CmdOutcome
  deriving DecidableEq

/-- True when the outcome is an exception other than `CalledProcessError`. -/
def CmdOutcome.isExn : CmdOutcome → Bool
  | .exn _ => true
  | _ => false

/-- Externally visible events: an external command invocation
(`subprocess.run`) or one of the two `time.sleep` call sites inside the flap
loops — `sleepMid` is the sleep between a suspend and its resume
(`eve_link_manager.py:384` and `:408`), `sleepBetween` the sleep between
consecutive cycles (`:391` and `:416`). -/
inductive Event where
  | ext : List String → Event
  | sleepMid : Event
  | sleepBetween : Event
  deriving DecidableEq

/-- Recognizer for external command events. -/
def isExtEvent : Event → Bool
  | .ext _ => true
  | _ => false

/-- Recognizer for the suspend-to-resume sleep event. -/
def isMidSleep : Event → Bool
  | .sleepMid => true
  | _ => false

/-- Recognizer for the cycle-to-cycle sleep event. -/
def isBetweenSleep : Event → Bool
  | .sleepBetween => true
  | _ => false

/-- Number of external command invocations recorded in a trace. -/
def extCount (tr : List Event) : Nat := tr.countP isExtEvent

/-- Number of suspend-to-resume sleeps recorded in a trace. -/
def midCount (tr : List Event) : Nat := tr.countP isMidSleep

/-- Number of cycle-to-cycle sleeps recorded in a trace. -/
def betweenCount (tr : List Event) : Nat := tr.countP isBetweenSleep

/-- Model of `subprocess.run(cmd, check=True)`: record the invocation in the
trace and let the world oracle decide the outcome of this (the n-th)
external invocation. -/
def subprocess_run (world : Nat → CmdOutcome) (cmd : List String) (tr : List Event) :
    CmdOutcome × List Event :=
  (world (extCount tr), tr ++ [Event.ext cmd])

/-- Command list built by `suspend_eveng_interface` (lines 222-229). -/
def suspendCmd (lab_path device_id interface_id : String) : List String :=
  ["sudo", "/opt/unetlab/wrappers/unl_wrapper",
   "-a", "suspendlink",
   "-T", "0",
   "-I", interface_id,
   "-D", device_id,
   "-F", lab_path]

/-- Command list built by `resume_eveng_interface` (lines 282-289). -/
def resumeCmd (lab_path device_id interface_id : String) : List String :=
  ["sudo", "/opt/unetlab/wrappers/unl_wrapper",
   "-a", "resumelink",
   "-T", "0",
   "-I", interface_id,
   "-D", device_id,
   "-F", lab_path]

/-- Message of line 235. -/
def dry_suspend_msg (device_id interface_id cmd_str : String) : String :=
  s!"DRY RUN - Would suspend device {device_id} interface {interface_id} with command: {cmd_str}"

/-- Message of line 240. -/
def suspend_ok_msg (device_id interface_id : String) : String :=
  s!"Successfully suspended device {device_id} interface {interface_id}"

/-- Message of line 242. -/
def suspend_err_msg (e : String) : String :=
  s!"Failed to suspend EVE-NG interface: {e}"

/-- Message of line 295. -/
def dry_resume_msg (device_id interface_id cmd_str : String) : String :=
  s!"DRY RUN - Would resume device {device_id} interface {interface_id} with command: {cmd_str}"

/-- Message of line 300. -/
def resume_ok_msg (device_id interface_id : String) : String :=
  s!"Successfully resumed device {device_id} interface {interface_id}"

/-- Message of line 302. -/
def resume_err_msg (e : String) : String :=
  s!"Failed to resume EVE-NG interface: {e}"

/-- Embedding of `suspend_eveng_interface` (lines 217-244).  In dry-run mode
the command is only logged; otherwise `subprocess.run(cmd, check=True)` is
invoked, a `CalledProcessError` is caught and converted into a failing
result, and any other exception propagates (the `except` clause at line 241
names only `subprocess.CalledProcessError`). -/
def suspend_eveng_interface (world : Nat → CmdOutcome)
    (lab_path device_id interface_id : String) (dry_run : Bool) (tr : List Event) :
    Except String (Bool × String) × List Event :=
  let cmd := suspendCmd lab_path device_id interface_id
  if dry_run then
    let cmd_str := String.intercalate " " cmd
    (Except.ok (true, dry_suspend_msg device_id interface_id cmd_str), tr)
  else
    match subprocess_run world cmd tr with
    | (.ok, tr1) => (Except.ok (true, suspend_ok_msg device_id interface_id), tr1)
    | (.cpe e, tr1) => (Except.ok (false, suspend_err_msg e), tr1)
    | (.exn e, tr1) => (Except.error e, tr1)

/-- Embedding of `resume_eveng_interface` (lines 277-304). -/
def resume_eveng_interface (world : Nat → CmdOutcome)
    (lab_path device_id interface_id : String) (dry_run : Bool) (tr : List Event) :
    Except String (Bool × String) × List Event :=
  let cmd := resumeCmd lab_path device_id interface_id
  if dry_run then
    let cmd_str := String.intercalate " " cmd
    (Except.ok (true, dry_resume_msg device_id interface_id cmd_str), tr)
  else
    match subprocess_run world cmd tr with
    | (.ok, tr1) => (Except.ok (true, resume_ok_msg device_id interface_id), tr1)
    | (.cpe e, tr1) => (Except.ok (false, resume_err_msg e), tr1)
    | (.exn e, tr1) => (Except.error e, tr1)

/-- Message of line 258. -/
def link_suspend_ok_msg (device1_id interface1_id device2_id interface2_id : String) : String :=
  s!"Successfully suspended link between device {device1_id} interface {interface1_id} and device {device2_id} interface {interface2_id}"

/-- Message of line 260. -/
def link_suspend_fail1_msg (message1 : String) : String :=
  s!"Failed to suspend first side of link: {message1}"

/-- Message of line 262. -/
def link_suspend_fail2_msg (message2 : String) : String :=
  s!"Failed to suspend second side of link: {message2}"

/-- Message of line 318. -/
def link_resume_ok_msg (device1_id interface1_id device2_id interface2_id : String) : String :=
  s!"Successfully resumed link between device {device1_id} interface {interface1_id} and device {device2_id} interface {interface2_id}"

/-- Message of line 320. -/
def link_resume_fail1_msg (message1 : String) : String :=
  s!"Failed to resume first side of link: {message1}"

/-- Message of line 322. -/
def link_resume_fail2_msg (message2 : String) : String :=
  s!"Failed to resume second side of link: {message2}"

/-- Embedding of `suspend_eveng_link` (lines 247-262): suspend side one, then
side two, then combine.  An exception raised by either endpoint call
propagates (there is no `try` in the Python function), skipping the rest. -/
def suspend_eveng_link (world : Nat → CmdOutcome)
    (lab_path device1_id interface1_id device2_id interface2_id : String)
    (dry_run : Bool) (tr : List Event) :
    Except String (Bool × String) × List Event :=
  match suspend_eveng_interface world lab_path device1_id interface1_id dry_run tr with
  | (.error e, tr1) => (Except.error e, tr1)
  | (.ok (success1, message1), tr1) =>
    match suspend_eveng_interface world lab_path device2_id interface2_id dry_run tr1 with
    | (.error e, tr2) => (Except.error e, tr2)
    | (.ok (success2, message2), tr2) =>
      if success1 && success2 then
        (Except.ok (true, link_suspend_ok_msg device1_id interface1_id device2_id interface2_id), tr2)
      else if !success1 then
        (Except.ok (false, link_suspend_fail1_msg message1), tr2)
      else
        (Except.ok (false, link_suspend_fail2_msg message2), tr2)

/-- Embedding of `resume_eveng_link` (lines 307-322). -/
def resume_eveng_link (world : Nat → CmdOutcome)
    (lab_path device1_id interface1_id device2_id interface2_id : String)
    (dry_run : Bool) (tr : List Event) :
    Except String (Bool × String) × List Event :=
  match resume_eveng_interface world lab_path device1_id interface1_id dry_run tr with
  | (.error e, tr1) => (Except.error e, tr1)
  | (.ok (success1, message1), tr1) =>
    match resume_eveng_interface world lab_path device2_id interface2_id dry_run tr1 with
    | (.error e, tr2) => (Except.error e, tr2)
    | (.ok (success2, message2), tr2) =>
      if success1 && success2 then
        (Except.ok (true, link_resume_ok_msg device1_id interface1_id device2_id interface2_id), tr2)
      else if !success1 then
        (Except.ok (false, link_resume_fail1_msg message1), tr2)
      else
        (Except.ok (false, link_resume_fail2_msg message2), tr2)

/-- List-level check that `needle` occurs at the start of `hay`. -/
def charsPre : List Char → List Char → Bool
  | [], _ => true
  | _ :: _, [] => false
  | c :: cs, d :: ds => c == d && charsPre cs ds

/-- List-level check that `needle` occurs contiguously anywhere in `hay`;
this is the semantics of Python's `needle in hay` on strings. -/
def charsSub (needle : List Char) : List Char → Bool
  | [] => needle.isEmpty
  | d :: ds => charsPre needle (d :: ds) || charsSub needle ds

/-- Python's substring test `needle in hay`. -/
def containsStr (hay needle : String) : Bool :=
  charsSub needle.data hay.data

theorem charsPre_self_append (s t : List Char) : charsPre s (s ++ t) = true := by
  induction s with
  | nil => rfl
  | cons c cs ih => simp [charsPre, ih]

theorem charsSub_of_charsPre {n : List Char} {h : List Char}
    (hp : charsPre n h = true) : charsSub n h = true := by
  cases h with
  | nil =>
    cases n with
    | nil => rfl
    | cons c cs => simp [charsPre] at hp
  | cons d ds => simp [charsSub, hp]

/-- Python's `str.lower()` (the names involved are ASCII). -/
def str_lower (s : String) : String := String.mk (s.data.map Char.toLower)

/-- String equality, computed on the underlying character lists. -/
def strEq (a b : String) : Bool := a.data == b.data

/-- Python's `str.startswith(p)`. -/
def str_starts (s p : String) : Bool := charsPre p.data s.data

/-- Split a character list at every occurrence of the single-character
separator, Python `str.split(sep)` style: `""` splits to `[""]` and adjacent
separators produce empty fields.  Both separators used by the program
(`'/'` in the resolver, `','` in the batch runner) are single characters. -/
def splitChar (sep : Char) : List Char → List (List Char)
  | [] => [[]]
  | c :: cs =>
    let r := splitChar sep cs
    if c == sep then [] :: r
    else
      match r with
      | [] => [[c]]
      | h :: t => (c :: h) :: t

/-- Python's `str.split(sep)` for a one-character separator. -/
def str_split (s : String) (sep : Char) : List String :=
  (splitChar sep s.data).map String.mk

/-- Python's `str.strip()`: drop whitespace from both ends. -/
def str_trim (s : String) : String :=
  String.mk (((s.data.dropWhile Char.isWhitespace).reverse.dropWhile Char.isWhitespace).reverse)

/-- Message at line 382 of `flap_interface`. -/
def host_flap_suspend_fail_msg (interface_name : String) : String :=
  s!"Failed to flap {interface_name} (suspend failed)"

/-- Message at line 388 of `flap_interface`. -/
def host_flap_resume_fail_msg (interface_name : String) : String :=
  s!"Failed to flap {interface_name} (resume failed)"

/-- Message at line 393 of `flap_interface`. -/
def host_flap_ok_msg (interface_name : String) (count : Nat) : String :=
  s!"Successfully flapped {interface_name} {count} times"

/-- Message of line 406. -/
def flap_suspend_fail_msg (device_id interface_id suspend_msg : String) : String :=
  s!"Failed to flap device {device_id} interface {interface_id} (suspend failed): {suspend_msg}"

/-- Message of line 413. -/
def flap_resume_fail_msg (device_id interface_id resume_msg : String) : String :=
  s!"Failed to flap device {device_id} interface {interface_id} (resume failed): {resume_msg}"

/-- Message of line 419.  The Python `delay` is a float that only ever flows
into `time.sleep` and into messages; it is modelled by its rendered text. -/
def flap_dry_msg (device_id interface_id : String) (count : Nat) (delay : String) : String :=
  s!"DRY RUN - Would flap device {device_id} interface {interface_id} {count} times with {delay}s delay"

/-- Message of line 421. -/
def flap_ok_msg (device_id interface_id : String) (count : Nat) (delay : String) : String :=
  s!"Successfully flapped device {device_id} interface {interface_id} {count} times with {delay}s delay"

/-- Loop body of `flap_eveng_interface` (lines 400-421), written with the
number of remaining iterations as fuel: at fuel `k + 1` the loop variable of
`for i in range(count)` is `i = count - (k + 1)`.  A failing suspend or
resume returns at once; an uncaught exception propagates. -/
def flap_eveng_go (world : Nat → CmdOutcome) (lab_path device_id interface_id : String)
    (count : Nat) (delay : String) (dry_run : Bool) :
    Nat → List Event → Except String (Bool × String) × List Event
  | 0, tr =>
    if dry_run then (Except.ok (true, flap_dry_msg device_id interface_id count delay), tr)
    else (Except.ok (true, flap_ok_msg device_id interface_id count delay), tr)
  | k + 1, tr =>
    match suspend_eveng_interface world lab_path device_id interface_id dry_run tr with
    | (.error e, tr1) => (Except.error e, tr1)
    | (.ok (suspend_success, suspend_msg), tr1) =>
      if !suspend_success then
        (Except.ok (false, flap_suspend_fail_msg device_id interface_id suspend_msg), tr1)
      else
        let tr2 := tr1 ++ [Event.sleepMid]
        match resume_eveng_interface world lab_path device_id interface_id dry_run tr2 with
        | (.error e, tr3) => (Except.error e, tr3)
        | (.ok (resume_success, resume_msg), tr3) =>
          if !resume_success then
            (Except.ok (false, flap_resume_fail_msg device_id interface_id resume_msg), tr3)
          else
            let i := count - (k + 1)
            let tr4 := if i < count - 1 then tr3 ++ [Event.sleepBetween] else tr3
            flap_eveng_go world lab_path device_id interface_id count delay dry_run k tr4

/-- Embedding of `flap_eveng_interface` (lines 396-421). -/
def flap_eveng_interface (world : Nat → CmdOutcome)
    (lab_path device_id interface_id : String) (count : Nat) (delay : String)
    (dry_run : Bool) (tr : List Event) :
    Except String (Bool × String) × List Event :=
  flap_eveng_go world lab_path device_id interface_id count delay dry_run count tr

/-- Command list of `suspend_interface` (line 209). -/
def hostDownCmd (interface_name : String) : List String :=
  ["sudo", "ip", "link", "set", interface_name, "down"]

/-- Command list of `resume_interface` (line 269). -/
def hostUpCmd (interface_name : String) : List String :=
  ["sudo", "ip", "link", "set", interface_name, "up"]

/-- Message of line 210. -/
def host_suspend_ok_msg (interface_name : String) : String :=
  s!"Successfully suspended {interface_name}"

/-- Message of line 212. -/
def host_suspend_err_msg (interface_name e : String) : String :=
  s!"Failed to suspend {interface_name}: {e}"

/-- Message of line 270. -/
def host_resume_ok_msg (interface_name : String) : String :=
  s!"Successfully resumed {interface_name}"

/-- Message of line 272. -/
def host_resume_err_msg (interface_name e : String) : String :=
  s!"Failed to resume {interface_name}: {e}"

/-- Embedding of `suspend_interface` (lines 205-214): bring a host interface
down; only `CalledProcessError` is caught. -/
def suspend_interface (world : Nat → CmdOutcome) (interface_name : String) (tr : List Event) :
    Except String (Bool × String) × List Event :=
  match subprocess_run world (hostDownCmd interface_name) tr with
  | (.ok, tr1) => (Except.ok (true, host_suspend_ok_msg interface_name), tr1)
  | (.cpe e, tr1) => (Except.ok (false, host_suspend_err_msg interface_name e), tr1)
  | (.exn e, tr1) => (Except.error e, tr1)

/-- Embedding of `resume_interface` (lines 265-274). -/
def resume_interface (world : Nat → CmdOutcome) (interface_name : String) (tr : List Event) :
    Except String (Bool × String) × List Event :=
  match subprocess_run world (hostUpCmd interface_name) tr with
  | (.ok, tr1) => (Except.ok (true, host_resume_ok_msg interface_name), tr1)
  | (.cpe e, tr1) => (Except.ok (false, host_resume_err_msg interface_name e), tr1)
  | (.exn e, tr1) => (Except.error e, tr1)

/-- Loop body of `flap_interface` (lines 377-393), same fuel convention as
`flap_eveng_go`; the step messages are discarded (the Python code binds them
to `_`). -/
def flap_host_go (world : Nat → CmdOutcome) (interface_name : String) (count : Nat) :
    Nat → List Event → Except String (Bool × String) × List Event
  | 0, tr => (Except.ok (true, host_flap_ok_msg interface_name count), tr)
  | k + 1, tr =>
    match suspend_interface world interface_name tr with
    | (.error e, tr1) => (Except.error e, tr1)
    | (.ok (suspend_success, _), tr1) =>
      if !suspend_success then
        (Except.ok (false, host_flap_suspend_fail_msg interface_name), tr1)
      else
        let tr2 := tr1 ++ [Event.sleepMid]
        match resume_interface world interface_name tr2 with
        | (.error e, tr3) => (Except.error e, tr3)
        | (.ok (resume_success, _), tr3) =>
          if !resume_success then
            (Except.ok (false, host_flap_resume_fail_msg interface_name), tr3)
          else
            let i := count - (k + 1)
            let tr4 := if i < count - 1 then tr3 ++ [Event.sleepBetween] else tr3
            flap_host_go world interface_name count k tr4

/-- Embedding of `flap_interface` (lines 373-393). -/
def flap_interface (world : Nat → CmdOutcome) (interface_name : String) (count : Nat)
    (tr : List Event) : Except String (Bool × String) × List Event :=
  flap_host_go world interface_name count count tr

/-- Loop of `get_device_id_by_name` (lines 451-453): scan the lab's nodes in
iteration order and return the id of the first node whose display name
matches case-insensitively.  The nodes mapping returned by the external
`list_nodes` call is passed in as an association list in iteration order;
the lab-path normalization and HTTP status handling of lines 427-448 only
shape that external call and are outside this data-level model. -/
def get_device_id_by_name (nodes : List (String × String)) (device_name : String) :
    Option String :=
  match nodes with
  | [] => none
  | (node_id, name) :: rest =>
    if strEq (str_lower name) (str_lower device_name) then some node_id
    else get_device_id_by_name rest device_name

/-- Value stored under an interface id in the provider's interface mapping:
either a dict (whose `name` key may be absent) or any non-dict value. -/
inductive IfVal where
  | dict : Option String → IfVal
  | nondict : IfVal
  deriving DecidableEq

/-- Display name of an interface entry, as `if_data.get('name', '')`. -/
def IfVal.nameOrEmpty : IfVal → String
  | .dict (some s) => s
  | .dict none => ""
  | .nondict => ""

/-- Lines 492-519 of `get_interface_id_by_name`: split the requested
interface name into a type token and a number token.  For slash-delimited
names the type part's digits become a leading segment of the number token;
for concatenated names the split happens at the first digit; a name with no
slash and no digit leaves both tokens empty. -/
def parse_interface_name (interface_name : String) : String × String :=
  if containsStr interface_name "/" then
    let parts := str_split (str_lower interface_name) '/'
    let type_part := parts.headD ""
    let interface_type := String.mk (type_part.data.filter (fun c => !c.isDigit))
    let type_number := String.mk (type_part.data.filter (fun c => c.isDigit))
    let interface_number := parts.getD 1 ""
    if type_number.data.isEmpty then (interface_type, interface_number)
    else (interface_type, type_number ++ "/" ++ interface_number)
  else
    match (str_lower interface_name).data.findIdx? (fun c => c.isDigit) with
    | some i => (str_lower (String.mk (interface_name.data.take i)), String.mk (interface_name.data.drop i))
    | none => ("", "")

/-- Alias table of lines 522-533 mapping type tokens to EVE-NG types. -/
def eve_types : List (String × String) :=
  [("e", "ethernet"), ("eth", "ethernet"), ("ethernet", "ethernet"),
   ("gi", "ethernet"), ("fa", "ethernet"), ("g", "ethernet"),
   ("gigabitethernet", "ethernet"), ("fastethernet", "ethernet"),
   ("s", "serial"), ("serial", "serial")]

/-- Lines 541-544: the last numeric segment of the number token. -/
def last_segment (interface_number : String) : String :=
  if containsStr interface_number "/" then (str_split interface_number '/').getLastD ""
  else interface_number

/-- Loop of lines 547-558: scan the resolved type bucket in iteration order;
for each entry try, in order, an id match against the last numeric segment,
an exact case-insensitive display-name match, and a substring match of the
requested name inside the stored display name (the latter two only when the
stored value is a dict); the first entry with any hit wins. -/
def match_in_bucket (interface_name last_part : String) :
    List (String × IfVal) → Option String
  | [] => none
  | (if_id, if_data) :: rest =>
    if strEq if_id last_part then some if_id
    else
      match if_data with
      | .dict nm =>
        if strEq (str_lower (nm.getD "")) (str_lower interface_name) then some if_id
        else if containsStr (str_lower (nm.getD "")) (str_lower interface_name) then some if_id
        else match_in_bucket interface_name last_part rest
      | .nondict => match_in_bucket interface_name last_part rest

/-- First-match association-list lookup, Python dict access by string key. -/
def lookup_assoc {α : Type} : List (String × α) → String → Option α
  | [], _ => none
  | (k, v) :: rest, key => if strEq k key then some v else lookup_assoc rest key

/-- EVE-NG type bucket the requested name resolves to (line 535). -/
def resolved_type (interface_name : String) : String :=
  (lookup_assoc eve_types (parse_interface_name interface_name).1).getD "ethernet"

/-- Last numeric segment of the requested name (lines 541-544). -/
def requested_segment (interface_name : String) : String :=
  last_segment (parse_interface_name interface_name).2

/-- Embedding of `get_interface_id_by_name` (lines 462-561), at the level of
the interface mapping returned by the external `get_node_interfaces` call
(passed in as nested association lists in iteration order; the lab-path
normalization and HTTP status handling of lines 465-484 only shape that
external call).  A missing type bucket, like an exhausted scan, yields
`none` (line 561). -/
def get_interface_id_by_name (interfaces : List (String × List (String × IfVal)))
    (interface_name : String) : Option String :=
  match lookup_assoc interfaces (resolved_type interface_name) with
  | some bucket => match_in_bucket interface_name (requested_segment interface_name) bucket
  | none => none

/-- Per-line try-body of `process_batch_file` (lines 640-718), for one
already-stripped non-skipped line.  Returns whether the line counts as a
success together with the extended trace; `none` before the pairing with a
count means the operation raised and was caught by the `except Exception`
handler of line 716, which also counts the line as a failure.  The
collaborator data (`nodes` for `get_device_id_by_name`, `ifacesOf` for
`get_node_interfaces`) is passed in; `operation` has already been validated
to be one of `suspend`, `resume` or `flap` by line 613. -/
def process_batch_line (world : Nat → CmdOutcome)
    (nodes : List (String × String))
    (ifacesOf : String → List (String × List (String × IfVal)))
    (operation lab_path : String) (dry_run : Bool) (count : Nat) (delay : String)
    (line : String) (tr : List Event) : Bool × List Event :=
  let parts := str_split line ','
  match parts with
  | [device1_id, interface1_id, device2_id, interface2_id] =>
    let (res, tr') :=
      if strEq operation "suspend" then
        match suspend_eveng_link world lab_path device1_id interface1_id device2_id interface2_id dry_run tr with
        | (.ok (r, _), tr1) => (some r, tr1)
        | (.error _, tr1) => (none, tr1)
      else if strEq operation "resume" then
        match resume_eveng_link world lab_path device1_id interface1_id device2_id interface2_id dry_run tr with
        | (.ok (r, _), tr1) => (some r, tr1)
        | (.error _, tr1) => (none, tr1)
      else
        match flap_eveng_interface world lab_path device1_id interface1_id count delay dry_run tr with
        | (.error _, tr1) => (none, tr1)
        | (.ok (result1, _), tr1) =>
          match flap_eveng_interface world lab_path device2_id interface2_id count delay dry_run tr1 with
          | (.error _, tr2) => (none, tr2)
          | (.ok (result2, _), tr2) => (some (result1 && result2), tr2)
    (res.getD false, tr')
  | [device_name, interface_name] =>
    match get_device_id_by_name nodes device_name with
    | none => (false, tr)
    | some device_id =>
      if device_id.data.isEmpty then (false, tr)
      else
        match get_interface_id_by_name (ifacesOf device_id) interface_name with
        | none => (false, tr)
        | some interface_id =>
          if interface_id.data.isEmpty then (false, tr)
          else
            let (res, tr') :=
              if strEq operation "suspend" then
                match suspend_eveng_interface world lab_path device_id interface_id dry_run tr with
                | (.ok (r, _), tr1) => (some r, tr1)
                | (.error _, tr1) => (none, tr1)
              else if strEq operation "resume" then
                match resume_eveng_interface world lab_path device_id interface_id dry_run tr with
                | (.ok (r, _), tr1) => (some r, tr1)
                | (.error _, tr1) => (none, tr1)
              else
                match flap_eveng_interface world lab_path device_id interface_id count delay dry_run tr with
                | (.ok (r, _), tr1) => (some r, tr1)
                | (.error _, tr1) => (none, tr1)
            (res.getD false, tr')
  | _ => (false, tr)

/-- Line loop of `process_batch_file` (lines 633-718): strip each raw line,
skip blank and comment lines, otherwise run the per-line body and bump the
matching counter.  Note the Python falsy test `if not device_id` also treats
an empty-string id as a lookup failure, which `process_batch_line` mirrors;
the empty-id cases and the raised-exception case all land in the failure
count exactly as the success flag says. -/
def process_batch_lines (world : Nat → CmdOutcome)
    (nodes : List (String × String))
    (ifacesOf : String → List (String × List (String × IfVal)))
    (operation lab_path : String) (dry_run : Bool) (count : Nat) (delay : String) :
    List String → Nat → Nat → List Event → (Nat × Nat) × List Event
  | [], success_count, failure_count, tr => ((success_count, failure_count), tr)
  | rawLine :: rest, success_count, failure_count, tr =>
    let line := str_trim rawLine
    if line.data.isEmpty || str_starts line "#" then
      process_batch_lines world nodes ifacesOf operation lab_path dry_run count delay
        rest success_count failure_count tr
    else
      match process_batch_line world nodes ifacesOf operation lab_path dry_run count delay line tr with
      | (true, tr') =>
        process_batch_lines world nodes ifacesOf operation lab_path dry_run count delay
          rest (success_count + 1) failure_count tr'
      | (false, tr') =>
        process_batch_lines world nodes ifacesOf operation lab_path dry_run count delay
          rest success_count (failure_count + 1) tr'

/-- Embedding of `process_batch_file` (lines 599-720).  The filesystem is
modelled by the flag `file_exists` plus the file's lines; a missing file
(line 609) and an invalid operation (line 613) each return `(0, 0)` before
any line is read and before the EVE-NG connection of line 631 is even
attempted. -/
def process_batch_file (world : Nat → CmdOutcome)
    (nodes : List (String × String))
    (ifacesOf : String → List (String × List (String × IfVal)))
    (file_exists : Bool) (file_lines : List String)
    (operation lab_path : String) (dry_run : Bool) (count : Nat) (delay : String)
    (tr : List Event) : (Nat × Nat) × List Event :=
  if !file_exists then ((0, 0), tr)
  else if !(strEq operation "suspend" || strEq operation "resume" || strEq operation "flap") then
    ((0, 0), tr)
  else
    process_batch_lines world nodes ifacesOf operation lab_path dry_run count delay
      file_lines 0 0 tr

/-- Lines 917-928 of `main` for the `batch` command: after printing the
summary it returns 1 when any operation failed, and otherwise falls off the
end of the function, returning Python's `None`. -/
def main_batch_return (failure_count : Nat) : Option Nat :=
  if failure_count > 0 then some 1 else none

/-- Lines 931-932: the `if __name__ == "__main__": main()` guard calls
`main()` as a bare expression statement, so its return value is discarded
and the interpreter exits normally with status 0 whichever value `main`
returned. -/
def script_exit_code (failure_count : Nat) : Nat :=
  match main_batch_return failure_count with
  | some _ => 0
  | none => 0

theorem extCount_append (tr l : List Event) : extCount (tr ++ l) = extCount tr + extCount l := by
  simp [extCount, List.countP_append]

theorem suspend_eveng_interface_apply (world : Nat → CmdOutcome) (lab d i : String) (tr : List Event) :
    suspend_eveng_interface world lab d i false tr =
      ((match world (extCount tr) with
        | .ok => Except.ok (true, suspend_ok_msg d i)
        | .cpe e => Except.ok (false, suspend_err_msg e)
        | .exn e => Except.error e),
       tr ++ [Event.ext (suspendCmd lab d i)]) := by
  cases h : world (extCount tr) <;>
    simp [suspend_eveng_interface, subprocess_run, h]

theorem resume_eveng_interface_apply (world : Nat → CmdOutcome) (lab d i : String) (tr : List Event) :
    resume_eveng_interface world lab d i false tr =
      ((match world (extCount tr) with
        | .ok => Except.ok (true, resume_ok_msg d i)
        | .cpe e => Except.ok (false, resume_err_msg e)
        | .exn e => Except.error e),
       tr ++ [Event.ext (resumeCmd lab d i)]) := by
  cases h : world (extCount tr) <;>
    simp [resume_eveng_interface, subprocess_run, h]

theorem dry_marker_suspend (d i c : String) :
    containsStr (dry_suspend_msg d i c) "DRY RUN" = true :=
  charsSub_of_charsPre (rfl : charsPre "DRY RUN".data (dry_suspend_msg d i c).data = true)

theorem dry_marker_resume (d i c : String) :
    containsStr (dry_resume_msg d i c) "DRY RUN" = true :=
  charsSub_of_charsPre (rfl : charsPre "DRY RUN".data (dry_resume_msg d i c).data = true)

/-- C1 (amended): in dry-run mode no external command is ever invoked (the
trace is unchanged) and every transition returns success=true; the
endpoint-level messages contain the dry-run marker, while the link-level
combined message is the ordinary success text. -/
theorem dryRun_no_external_and_markers (world : Nat → CmdOutcome)
    (lab d1 i1 d2 i2 : String) (tr : List Event) :
    suspend_eveng_interface world lab d1 i1 true tr =
      (Except.ok (true, dry_suspend_msg d1 i1 (String.intercalate " " (suspendCmd lab d1 i1))), tr) ∧
    containsStr (dry_suspend_msg d1 i1 (String.intercalate " " (suspendCmd lab d1 i1))) "DRY RUN" = true ∧
    resume_eveng_interface world lab d1 i1 true tr =
      (Except.ok (true, dry_resume_msg d1 i1 (String.intercalate " " (resumeCmd lab d1 i1))), tr) ∧
    containsStr (dry_resume_msg d1 i1 (String.intercalate " " (resumeCmd lab d1 i1))) "DRY RUN" = true ∧
    suspend_eveng_link world lab d1 i1 d2 i2 true tr =
      (Except.ok (true, link_suspend_ok_msg d1 i1 d2 i2), tr) ∧
    resume_eveng_link world lab d1 i1 d2 i2 true tr =
      (Except.ok (true, link_resume_ok_msg d1 i1 d2 i2), tr) :=
  ⟨rfl, dry_marker_suspend _ _ _, rfl, dry_marker_resume _ _ _, rfl, rfl⟩

/-- C1 counterexample: a link-level dry-run transition succeeds without
invoking any external command, but its combined message does not contain the
dry-run marker, contradicting the claim that every transition's dry-run
message carries the marker. -/
theorem dryRun_link_message_lacks_marker :
    suspend_eveng_link (fun _ => CmdOutcome.ok) "lab" "1" "0" "2" "0" true [] =
      (Except.ok (true, "Successfully suspended link between device 1 interface 0 and device 2 interface 0"), []) ∧
    containsStr "Successfully suspended link between device 1 interface 0 and device 2 interface 0" "DRY RUN" = false :=
  ⟨rfl, rfl⟩

/-- C2: a link-level transition whose two endpoint calls return results
`(s1, m1)` and `(s2, m2)` returns success `s1 && s2`; when endpoint 1 fails
the combined message is built from endpoint 1's message alone, and when
endpoint 1 succeeds but endpoint 2 fails it is built from endpoint 2's
message alone. -/
theorem link_combination_rule (world world' : Nat → CmdOutcome)
    (lab lab' d1 i1 d2 i2 e1 j1 e2 j2 : String) (dry dry' : Bool)
    (tr tr1 tr2 ur ur1 ur2 : List Event) (s1 s2 u1 u2 : Bool) (m1 m2 n1 n2 : String)
    (hs1 : suspend_eveng_interface world lab d1 i1 dry tr = (Except.ok (s1, m1), tr1))
    (hs2 : suspend_eveng_interface world lab d2 i2 dry tr1 = (Except.ok (s2, m2), tr2))
    (hr1 : resume_eveng_interface world' lab' e1 j1 dry' ur = (Except.ok (u1, n1), ur1))
    (hr2 : resume_eveng_interface world' lab' e2 j2 dry' ur1 = (Except.ok (u2, n2), ur2)) :
    suspend_eveng_link world lab d1 i1 d2 i2 dry tr =
      (Except.ok (s1 && s2,
        if s1 && s2 then link_suspend_ok_msg d1 i1 d2 i2
        else if !s1 then link_suspend_fail1_msg m1
        else link_suspend_fail2_msg m2), tr2) ∧
    resume_eveng_link world' lab' e1 j1 e2 j2 dry' ur =
      (Except.ok (u1 && u2,
        if u1 && u2 then link_resume_ok_msg e1 j1 e2 j2
        else if !u1 then link_resume_fail1_msg n1
        else link_resume_fail2_msg n2), ur2) := by
  constructor
  · rw [suspend_eveng_link, hs1]
    dsimp only
    rw [hs2]
    cases s1 <;> cases s2 <;> simp
  · rw [resume_eveng_link, hr1]
    dsimp only
    rw [hr2]
    cases u1 <;> cases u2 <;> simp

theorem extCount_snoc_ext (tr : List Event) (c : List String) :
    extCount (tr ++ [Event.ext c]) = extCount tr + 1 := by
  simp [extCount, List.countP_append, isExtEvent]

/-- C3: in apply mode, when neither invocation raises a non-CalledProcessError
exception, a link-level transition performs exactly two external endpoint
transitions, endpoint 1 first and then endpoint 2, whatever the two
outcomes are (in particular endpoint 2 is still attempted when endpoint 1's
command fails, as the witness exercises). -/
theorem link_two_calls_in_order (world world' : Nat → CmdOutcome)
    (lab lab' d1 i1 d2 i2 e1 j1 e2 j2 : String) (tr ur : List Event)
    (h1 : (world (extCount tr)).isExn = false)
    (h2 : (world (extCount tr + 1)).isExn = false)
    (h3 : (world' (extCount ur)).isExn = false)
    (h4 : (world' (extCount ur + 1)).isExn = false) :
    (∃ s m, suspend_eveng_link world lab d1 i1 d2 i2 false tr =
      (Except.ok (s, m), tr ++ [Event.ext (suspendCmd lab d1 i1), Event.ext (suspendCmd lab d2 i2)])) ∧
    (∃ s m, resume_eveng_link world' lab' e1 j1 e2 j2 false ur =
      (Except.ok (s, m), ur ++ [Event.ext (resumeCmd lab' e1 j1), Event.ext (resumeCmd lab' e2 j2)])) := by
  constructor
  · rw [suspend_eveng_link, suspend_eveng_interface_apply]
    cases hw : world (extCount tr) with
    | exn e => rw [hw] at h1; simp [CmdOutcome.isExn] at h1
    | ok =>
      dsimp only
      rw [suspend_eveng_interface_apply, extCount_snoc_ext]
      cases hw2 : world (extCount tr + 1) with
      | exn e => rw [hw2] at h2; simp [CmdOutcome.isExn] at h2
      | ok => exact ⟨true, link_suspend_ok_msg d1 i1 d2 i2, by simp⟩
      | cpe e => exact ⟨false, link_suspend_fail2_msg (suspend_err_msg e), by simp⟩
    | cpe e =>
      dsimp only
      rw [suspend_eveng_interface_apply, extCount_snoc_ext]
      cases hw2 : world (extCount tr + 1) with
      | exn e2 => rw [hw2] at h2; simp [CmdOutcome.isExn] at h2
      | ok => exact ⟨false, link_suspend_fail1_msg (suspend_err_msg e), by simp⟩
      | cpe e2 => exact ⟨false, link_suspend_fail1_msg (suspend_err_msg e), by simp⟩
  · rw [resume_eveng_link, resume_eveng_interface_apply]
    cases hw : world' (extCount ur) with
    | exn e => rw [hw] at h3; simp [CmdOutcome.isExn] at h3
    | ok =>
      dsimp only
      rw [resume_eveng_interface_apply, extCount_snoc_ext]
      cases hw2 : world' (extCount ur + 1) with
      | exn e => rw [hw2] at h4; simp [CmdOutcome.isExn] at h4
      | ok => exact ⟨true, link_resume_ok_msg e1 j1 e2 j2, by simp⟩
      | cpe e => exact ⟨false, link_resume_fail2_msg (resume_err_msg e), by simp⟩
    | cpe e =>
      dsimp only
      rw [resume_eveng_interface_apply, extCount_snoc_ext]
      cases hw2 : world' (extCount ur + 1) with
      | exn e2 => rw [hw2] at h4; simp [CmdOutcome.isExn] at h4
      | ok => exact ⟨false, link_resume_fail1_msg (resume_err_msg e), by simp⟩
      | cpe e2 => exact ⟨false, link_resume_fail1_msg (resume_err_msg e), by simp⟩

/-- Witness for `link_combination_rule` at a concrete input. -/
theorem link_combination_rule_witness :
    (suspend_eveng_interface (fun _ => CmdOutcome.cpe "x") "lab" "1" "0" false [] =
      (Except.ok (false, suspend_err_msg "x"), [Event.ext (suspendCmd "lab" "1" "0")])) ∧
    (suspend_eveng_interface (fun _ => CmdOutcome.cpe "x") "lab" "2" "1" false
        [Event.ext (suspendCmd "lab" "1" "0")] =
      (Except.ok (false, suspend_err_msg "x"),
       [Event.ext (suspendCmd "lab" "1" "0"), Event.ext (suspendCmd "lab" "2" "1")])) ∧
    (resume_eveng_interface (fun _ => CmdOutcome.ok) "lab" "3" "0" true [] =
      (Except.ok (true, dry_resume_msg "3" "0" (String.intercalate " " (resumeCmd "lab" "3" "0"))), [])) ∧
    (resume_eveng_interface (fun _ => CmdOutcome.ok) "lab" "4" "1" true [] =
      (Except.ok (true, dry_resume_msg "4" "1" (String.intercalate " " (resumeCmd "lab" "4" "1"))), [])) ∧
    (suspend_eveng_link (fun _ => CmdOutcome.cpe "x") "lab" "1" "0" "2" "1" false [] =
      (Except.ok (false && false,
        if false && false then link_suspend_ok_msg "1" "0" "2" "1"
        else if !false then link_suspend_fail1_msg (suspend_err_msg "x")
        else link_suspend_fail2_msg (suspend_err_msg "x")),
       [Event.ext (suspendCmd "lab" "1" "0"), Event.ext (suspendCmd "lab" "2" "1")]) ∧
     resume_eveng_link (fun _ => CmdOutcome.ok) "lab" "3" "0" "4" "1" true [] =
      (Except.ok (true && true,
        if true && true then link_resume_ok_msg "3" "0" "4" "1"
        else if !true then link_resume_fail1_msg (dry_resume_msg "3" "0" (String.intercalate " " (resumeCmd "lab" "3" "0")))
        else link_resume_fail2_msg (dry_resume_msg "4" "1" (String.intercalate " " (resumeCmd "lab" "4" "1")))),
       [])) :=
  ⟨rfl, rfl, rfl, rfl,
   link_combination_rule (fun _ => CmdOutcome.cpe "x") (fun _ => CmdOutcome.ok)
     "lab" "lab" "1" "0" "2" "1" "3" "0" "4" "1" false true
     [] [Event.ext (suspendCmd "lab" "1" "0")]
     [Event.ext (suspendCmd "lab" "1" "0"), Event.ext (suspendCmd "lab" "2" "1")]
     [] [] [] false false true true
     (suspend_err_msg "x") (suspend_err_msg "x")
     (dry_resume_msg "3" "0" (String.intercalate " " (resumeCmd "lab" "3" "0")))
     (dry_resume_msg "4" "1" (String.intercalate " " (resumeCmd "lab" "4" "1")))
     rfl rfl rfl rfl⟩

/-- Witness for `link_two_calls_in_order` at a concrete input where endpoint 1 fails. -/
theorem link_two_calls_in_order_witness :
    (((fun n => if n = 0 then CmdOutcome.cpe "x" else CmdOutcome.ok) (extCount ([] : List Event))).isExn = false) ∧
    (((fun n => if n = 0 then CmdOutcome.cpe "x" else CmdOutcome.ok) (extCount ([] : List Event) + 1)).isExn = false) ∧
    (((fun _ => CmdOutcome.ok) (extCount ([] : List Event))).isExn = false) ∧
    (((fun _ => CmdOutcome.ok) (extCount ([] : List Event) + 1)).isExn = false) ∧
    ((∃ s m, suspend_eveng_link (fun n => if n = 0 then CmdOutcome.cpe "x" else CmdOutcome.ok)
        "lab" "1" "0" "2" "1" false [] =
      (Except.ok (s, m), [] ++ [Event.ext (suspendCmd "lab" "1" "0"), Event.ext (suspendCmd "lab" "2" "1")])) ∧
     (∃ s m, resume_eveng_link (fun _ => CmdOutcome.ok) "lab" "3" "0" "4" "1" false [] =
      (Except.ok (s, m), [] ++ [Event.ext (resumeCmd "lab" "3" "0"), Event.ext (resumeCmd "lab" "4" "1")]))) :=
  ⟨rfl, rfl, rfl, rfl,
   link_two_calls_in_order (fun n => if n = 0 then CmdOutcome.cpe "x" else CmdOutcome.ok)
     (fun _ => CmdOutcome.ok) "lab" "lab" "1" "0" "2" "1" "3" "0" "4" "1" [] []
     rfl rfl rfl rfl⟩

/-- C6 evidence: in apply mode an exception other than `CalledProcessError`
raised by `subprocess.run` (here a `FileNotFoundError`) propagates out of the
endpoint executor as an uncaught exception instead of being converted into a
`success=false` result, while a `CalledProcessError` is converted. -/
theorem executor_exception_propagates :
    suspend_eveng_interface (fun _ => CmdOutcome.exn "[Errno 2] No such file or directory") "lab" "1" "0" false [] =
      (Except.error "[Errno 2] No such file or directory", [Event.ext (suspendCmd "lab" "1" "0")]) ∧
    resume_eveng_interface (fun _ => CmdOutcome.exn "[Errno 2] No such file or directory") "lab" "1" "0" false [] =
      (Except.error "[Errno 2] No such file or directory", [Event.ext (resumeCmd "lab" "1" "0")]) ∧
    suspend_eveng_interface (fun _ => CmdOutcome.cpe "Command returned non-zero exit status 1.") "lab" "1" "0" false [] =
      (Except.ok (false, suspend_err_msg "Command returned non-zero exit status 1."),
       [Event.ext (suspendCmd "lab" "1" "0")]) :=
  ⟨rfl, rfl, rfl⟩

/-- C9 evidence: for the batch command, `main` returns 1 to its caller when
`failure_count > 0` and `None` otherwise, but the `__main__` guard discards
that return value, so the process exit status is 0 in both cases. -/
theorem batch_exit_code_discarded :
    main_batch_return 1 = some 1 ∧ script_exit_code 1 = 0 ∧
    main_batch_return 0 = none ∧ script_exit_code 0 = 0 :=
  ⟨rfl, rfl, rfl, rfl⟩

/-- All three ways one entry of the type bucket can match the requested
interface name: its local id equals the last numeric segment, its display
name matches exactly case-insensitively, or the requested name occurs as a
substring of its display name (the latter two only for dict entries). -/
def bucket_hit (interface_name last_part : String) (p : String × IfVal) : Bool :=
  strEq p.1 last_part ||
    (match p.2 with
     | .dict nm =>
       strEq (str_lower (nm.getD "")) (str_lower interface_name) ||
         containsStr (str_lower (nm.getD "")) (str_lower interface_name)
     | .nondict => false)

theorem match_in_bucket_eq_find (interface_name last_part : String)
    (bucket : List (String × IfVal)) :
    match_in_bucket interface_name last_part bucket =
      (bucket.find? (bucket_hit interface_name last_part)).map Prod.fst := by
  induction bucket with
  | nil => rfl
  | cons p rest ih =>
    obtain ⟨if_id, if_data⟩ := p
    cases if_data with
    | dict nm =>
      cases h1 : strEq if_id last_part with
      | true => simp [match_in_bucket, bucket_hit, List.find?_cons, h1]
      | false =>
        cases h2 : strEq (str_lower (nm.getD "")) (str_lower interface_name) with
        | true => simp [match_in_bucket, bucket_hit, List.find?_cons, h1, h2]
        | false =>
          cases h3 : containsStr (str_lower (nm.getD "")) (str_lower interface_name) with
          | true => simp [match_in_bucket, bucket_hit, List.find?_cons, h1, h2, h3]
          | false => simp [match_in_bucket, bucket_hit, List.find?_cons, h1, h2, h3, ih]
    | nondict =>
      cases h1 : strEq if_id last_part with
      | true => simp [match_in_bucket, bucket_hit, List.find?_cons, h1]
      | false => simp [match_in_bucket, bucket_hit, List.find?_cons, h1, ih]

/-- C7 (amended): interface-name resolution scans the resolved type bucket
entry by entry in provider iteration order and returns the id of the first
entry that matches any of the three checks (id against last numeric segment,
exact case-insensitive name, substring); an id-tier match on a later entry
cannot override any match on an earlier entry. -/
theorem resolver_first_hit_scan (interfaces : List (String × List (String × IfVal)))
    (interface_name : String) :
    get_interface_id_by_name interfaces interface_name =
      (lookup_assoc interfaces (resolved_type interface_name)).bind
        (fun bucket =>
          (bucket.find? (bucket_hit interface_name (requested_segment interface_name))).map
            Prod.fst) := by
  rw [get_interface_id_by_name]
  cases h : lookup_assoc interfaces (resolved_type interface_name) with
  | none => rfl
  | some bucket => simp [match_in_bucket_eq_find]

/-- C7 counterexample: requesting `e0/0` against a bucket whose first entry
`("3", name "e0/0")` matches by display name and whose second entry has
local id `"0"` equal to the requested name's last numeric segment returns
`"3"`, not the id-tier match `"0"`; so an interface whose local ID equals
the last numeric segment is not always the one returned. -/
theorem resolver_tier_order_cex :
    requested_segment "e0/0" = "0" ∧
    lookup_assoc
        [("ethernet", [("3", IfVal.dict (some "e0/0")), ("0", IfVal.dict (some "Ethernet0/0"))])]
        (resolved_type "e0/0") =
      some [("3", IfVal.dict (some "e0/0")), ("0", IfVal.dict (some "Ethernet0/0"))] ∧
    get_interface_id_by_name
        [("ethernet", [("3", IfVal.dict (some "e0/0")), ("0", IfVal.dict (some "Ethernet0/0"))])]
        "e0/0" =
      some "3" ∧
    some "3" ≠ some ("0" : String) :=
  ⟨rfl, rfl, rfl, by decide⟩

/-- Events of an all-success run of the EVE-NG flap loop with the given
remaining-iteration count: each cycle contributes suspend, mid-pair sleep,
resume, and — whenever further cycles remain — a between-pair sleep. -/
def flapOkEvents (lab_path device_id interface_id : String) : Nat → List Event
  | 0 => []
  | k + 1 =>
    [Event.ext (suspendCmd lab_path device_id interface_id), Event.sleepMid,
     Event.ext (resumeCmd lab_path device_id interface_id)] ++
      (if 1 ≤ k then [Event.sleepBetween] else []) ++
      flapOkEvents lab_path device_id interface_id k

/-- Events of `m` completed non-final EVE-NG flap cycles (each one ends with
the between-pair sleep because more cycles follow). -/
def okFullCycles (lab_path device_id interface_id : String) : Nat → List Event
  | 0 => []
  | m + 1 =>
    [Event.ext (suspendCmd lab_path device_id interface_id), Event.sleepMid,
     Event.ext (resumeCmd lab_path device_id interface_id), Event.sleepBetween] ++
      okFullCycles lab_path device_id interface_id m

theorem suspend_ok_world (lab d i : String) (tr : List Event) :
    suspend_eveng_interface (fun _ => CmdOutcome.ok) lab d i false tr =
      (Except.ok (true, suspend_ok_msg d i), tr ++ [Event.ext (suspendCmd lab d i)]) := rfl

theorem resume_ok_world (lab d i : String) (tr : List Event) :
    resume_eveng_interface (fun _ => CmdOutcome.ok) lab d i false tr =
      (Except.ok (true, resume_ok_msg d i), tr ++ [Event.ext (resumeCmd lab d i)]) := rfl

theorem flap_eveng_go_allok (lab dev ifc delay : String) (count : Nat) :
    ∀ k, k ≤ count → ∀ tr,
      flap_eveng_go (fun _ => CmdOutcome.ok) lab dev ifc count delay false k tr =
        (Except.ok (true, flap_ok_msg dev ifc count delay),
         tr ++ flapOkEvents lab dev ifc k) := by
  intro k
  induction k with
  | zero => intro _ tr; simp [flap_eveng_go, flapOkEvents]
  | succ k ih =>
    intro hk tr
    simp only [flap_eveng_go, suspend_ok_world, resume_ok_world]
    by_cases hk1 : 1 ≤ k
    · have hlt : count - (k + 1) < count - 1 := by omega
      rw [if_pos hlt, ih (by omega)]
      simp [flapOkEvents, hk1]
    · have hk0 : k = 0 := by omega
      subst hk0
      have hlt : ¬ (count - (0 + 1) < count - 1) := by omega
      rw [if_neg hlt, ih (by omega)]
      simp [flapOkEvents]

theorem extCount_append2 (tr l : List Event) : extCount (tr ++ l) = extCount tr + extCount l := by
  simp [extCount, List.countP_append]

theorem flap_eveng_go_fail_suspend (W : Nat → CmdOutcome) (lab dev ifc delay e : String)
    (count : Nat) :
    ∀ m, ∀ k tr, m < k → k ≤ count →
      (∀ n, n < extCount tr + 2 * m → W n = CmdOutcome.ok) →
      W (extCount tr + 2 * m) = CmdOutcome.cpe e →
      flap_eveng_go W lab dev ifc count delay false k tr =
        (Except.ok (false, flap_suspend_fail_msg dev ifc (suspend_err_msg e)),
         tr ++ okFullCycles lab dev ifc m ++ [Event.ext (suspendCmd lab dev ifc)]) := by
  intro m
  induction m with
  | zero =>
    intro k tr hmk hkc hok hf
    obtain ⟨k', rfl⟩ : ∃ k', k = k' + 1 := ⟨k - 1, by omega⟩
    have hf0 : W (extCount tr) = CmdOutcome.cpe e := by simpa using hf
    simp only [flap_eveng_go, suspend_eveng_interface_apply, hf0]
    simp [okFullCycles]
  | succ m ih =>
    intro k tr hmk hkc hok hf
    obtain ⟨k', rfl⟩ : ∃ k', k = k' + 1 := ⟨k - 1, by omega⟩
    have hs : W (extCount tr) = CmdOutcome.ok := hok _ (by omega)
    simp only [flap_eveng_go, suspend_eveng_interface_apply, hs]
    have e1 : extCount (tr ++ [Event.ext (suspendCmd lab dev ifc)] ++ [Event.sleepMid]) =
        extCount tr + 1 := by
      simp [extCount, List.countP_append, isExtEvent]
    simp only [resume_eveng_interface_apply, e1]
    have hr : W (extCount tr + 1) = CmdOutcome.ok := hok _ (by omega)
    simp only [hr]
    have hlt : count - (k' + 1) < count - 1 := by omega
    rw [if_pos hlt]
    have e2 : extCount (tr ++ [Event.ext (suspendCmd lab dev ifc)] ++ [Event.sleepMid] ++
        [Event.ext (resumeCmd lab dev ifc)] ++ [Event.sleepBetween]) = extCount tr + 2 := by
      simp [extCount, List.countP_append, isExtEvent]
    rw [ih k' _ (by omega) (by omega)
      (by intro n hn; exact hok n (by rw [e2] at hn; omega))
      (by rw [e2]; have : extCount tr + 2 + 2 * m = extCount tr + 2 * (m + 1) := by omega
          rw [this]; exact hf)]
    simp [okFullCycles]

theorem flap_eveng_go_fail_resume (W : Nat → CmdOutcome) (lab dev ifc delay e : String)
    (count : Nat) :
    ∀ m, ∀ k tr, m < k → k ≤ count →
      (∀ n, n < extCount tr + 2 * m + 1 → W n = CmdOutcome.ok) →
      W (extCount tr + 2 * m + 1) = CmdOutcome.cpe e →
      flap_eveng_go W lab dev ifc count delay false k tr =
        (Except.ok (false, flap_resume_fail_msg dev ifc (resume_err_msg e)),
         tr ++ okFullCycles lab dev ifc m ++
           [Event.ext (suspendCmd lab dev ifc), Event.sleepMid,
            Event.ext (resumeCmd lab dev ifc)]) := by
  intro m
  induction m with
  | zero =>
    intro k tr hmk hkc hok hf
    obtain ⟨k', rfl⟩ : ∃ k', k = k' + 1 := ⟨k - 1, by omega⟩
    have hs : W (extCount tr) = CmdOutcome.ok := hok _ (by omega)
    simp only [flap_eveng_go, suspend_eveng_interface_apply, hs]
    have e1 : extCount (tr ++ [Event.ext (suspendCmd lab dev ifc)] ++ [Event.sleepMid]) =
        extCount tr + 1 := by
      simp [extCount, List.countP_append, isExtEvent]
    simp only [resume_eveng_interface_apply, e1]
    have hf0 : W (extCount tr + 1) = CmdOutcome.cpe e := by simpa using hf
    simp only [hf0]
    simp [okFullCycles]
  | succ m ih =>
    intro k tr hmk hkc hok hf
    obtain ⟨k', rfl⟩ : ∃ k', k = k' + 1 := ⟨k - 1, by omega⟩
    have hs : W (extCount tr) = CmdOutcome.ok := hok _ (by omega)
    simp only [flap_eveng_go, suspend_eveng_interface_apply, hs]
    have e1 : extCount (tr ++ [Event.ext (suspendCmd lab dev ifc)] ++ [Event.sleepMid]) =
        extCount tr + 1 := by
      simp [extCount, List.countP_append, isExtEvent]
    simp only [resume_eveng_interface_apply, e1]
    have hr : W (extCount tr + 1) = CmdOutcome.ok := hok _ (by omega)
    simp only [hr]
    have hlt : count - (k' + 1) < count - 1 := by omega
    rw [if_pos hlt]
    have e2 : extCount (tr ++ [Event.ext (suspendCmd lab dev ifc)] ++ [Event.sleepMid] ++
        [Event.ext (resumeCmd lab dev ifc)] ++ [Event.sleepBetween]) = extCount tr + 2 := by
      simp [extCount, List.countP_append, isExtEvent]
    rw [ih k' _ (by omega) (by omega)
      (by intro n hn; exact hok n (by rw [e2] at hn; omega))
      (by rw [e2]; have : extCount tr + 2 + 2 * m + 1 = extCount tr + 2 * (m + 1) + 1 := by omega
          rw [this]; exact hf)]
    simp [okFullCycles]

theorem flapOkEvents_counts (lab dev ifc : String) (N : Nat) :
    extCount (flapOkEvents lab dev ifc N) = 2 * N ∧
    midCount (flapOkEvents lab dev ifc N) = N ∧
    betweenCount (flapOkEvents lab dev ifc N) = N - 1 := by
  induction N with
  | zero => simp [flapOkEvents, extCount, midCount, betweenCount]
  | succ N ih =>
    obtain ⟨h1, h2, h3⟩ := ih
    simp only [extCount, midCount, betweenCount] at h1 h2 h3
    by_cases hN : 1 ≤ N <;>
      refine ⟨?_, ?_, ?_⟩ <;>
        simp [flapOkEvents, extCount, midCount, betweenCount, List.countP_append,
              List.countP_cons, isExtEvent, isMidSleep, isBetweenSleep, hN, h1, h2, h3] <;>
        omega

theorem okFullCycles_ext (lab dev ifc : String) (m : Nat) :
    extCount (okFullCycles lab dev ifc m) = 2 * m := by
  induction m with
  | zero => simp [okFullCycles, extCount]
  | succ m ih =>
    simp only [extCount] at ih
    simp [okFullCycles, extCount, List.countP_append, List.countP_cons, isExtEvent, ih]
    omega

/-- Events of an all-success run of the host flap loop. -/
def flapOkEventsHost (interface_name : String) : Nat → List Event
  | 0 => []
  | k + 1 =>
    [Event.ext (hostDownCmd interface_name), Event.sleepMid,
     Event.ext (hostUpCmd interface_name)] ++
      (if 1 ≤ k then [Event.sleepBetween] else []) ++
      flapOkEventsHost interface_name k

/-- Events of `m` completed non-final host flap cycles. -/
def okFullCyclesHost (interface_name : String) : Nat → List Event
  | 0 => []
  | m + 1 =>
    [Event.ext (hostDownCmd interface_name), Event.sleepMid,
     Event.ext (hostUpCmd interface_name), Event.sleepBetween] ++
      okFullCyclesHost interface_name m

theorem suspend_interface_apply (world : Nat → CmdOutcome) (nm : String) (tr : List Event) :
    suspend_interface world nm tr =
      ((match world (extCount tr) with
        | .ok => Except.ok (true, host_suspend_ok_msg nm)
        | .cpe e => Except.ok (false, host_suspend_err_msg nm e)
        | .exn e => Except.error e),
       tr ++ [Event.ext (hostDownCmd nm)]) := by
  cases h : world (extCount tr) <;> simp [suspend_interface, subprocess_run, h]

theorem resume_interface_apply (world : Nat → CmdOutcome) (nm : String) (tr : List Event) :
    resume_interface world nm tr =
      ((match world (extCount tr) with
        | .ok => Except.ok (true, host_resume_ok_msg nm)
        | .cpe e => Except.ok (false, host_resume_err_msg nm e)
        | .exn e => Except.error e),
       tr ++ [Event.ext (hostUpCmd nm)]) := by
  cases h : world (extCount tr) <;> simp [resume_interface, subprocess_run, h]

theorem suspend_host_ok_world (nm : String) (tr : List Event) :
    suspend_interface (fun _ => CmdOutcome.ok) nm tr =
      (Except.ok (true, host_suspend_ok_msg nm), tr ++ [Event.ext (hostDownCmd nm)]) := rfl

theorem resume_host_ok_world (nm : String) (tr : List Event) :
    resume_interface (fun _ => CmdOutcome.ok) nm tr =
      (Except.ok (true, host_resume_ok_msg nm), tr ++ [Event.ext (hostUpCmd nm)]) := rfl

theorem flap_host_go_allok (nm : String) (count : Nat) :
    ∀ k, k ≤ count → ∀ tr,
      flap_host_go (fun _ => CmdOutcome.ok) nm count k tr =
        (Except.ok (true, host_flap_ok_msg nm count), tr ++ flapOkEventsHost nm k) := by
  intro k
  induction k with
  | zero => intro _ tr; simp [flap_host_go, flapOkEventsHost]
  | succ k ih =>
    intro hk tr
    simp only [flap_host_go, suspend_host_ok_world, resume_host_ok_world]
    by_cases hk1 : 1 ≤ k
    · have hlt : count - (k + 1) < count - 1 := by omega
      rw [if_pos hlt, ih (by omega)]
      simp [flapOkEventsHost, hk1]
    · have hk0 : k = 0 := by omega
      subst hk0
      have hlt : ¬ (count - (0 + 1) < count - 1) := by omega
      rw [if_neg hlt, ih (by omega)]
      simp [flapOkEventsHost]

theorem flap_host_go_fail_suspend (W : Nat → CmdOutcome) (nm e : String) (count : Nat) :
    ∀ m, ∀ k tr, m < k → k ≤ count →
      (∀ n, n < extCount tr + 2 * m → W n = CmdOutcome.ok) →
      W (extCount tr + 2 * m) = CmdOutcome.cpe e →
      flap_host_go W nm count k tr =
        (Except.ok (false, host_flap_suspend_fail_msg nm),
         tr ++ okFullCyclesHost nm m ++ [Event.ext (hostDownCmd nm)]) := by
  intro m
  induction m with
  | zero =>
    intro k tr hmk hkc hok hf
    obtain ⟨k', rfl⟩ : ∃ k', k = k' + 1 := ⟨k - 1, by omega⟩
    have hf0 : W (extCount tr) = CmdOutcome.cpe e := by simpa using hf
    simp only [flap_host_go, suspend_interface_apply, hf0]
    simp [okFullCyclesHost]
  | succ m ih =>
    intro k tr hmk hkc hok hf
    obtain ⟨k', rfl⟩ : ∃ k', k = k' + 1 := ⟨k - 1, by omega⟩
    have hs : W (extCount tr) = CmdOutcome.ok := hok _ (by omega)
    simp only [flap_host_go, suspend_interface_apply, hs]
    have e1 : extCount (tr ++ [Event.ext (hostDownCmd nm)] ++ [Event.sleepMid]) =
        extCount tr + 1 := by
      simp [extCount, List.countP_append, isExtEvent]
    simp only [resume_interface_apply, e1]
    have hr : W (extCount tr + 1) = CmdOutcome.ok := hok _ (by omega)
    simp only [hr]
    have hlt : count - (k' + 1) < count - 1 := by omega
    rw [if_pos hlt]
    have e2 : extCount (tr ++ [Event.ext (hostDownCmd nm)] ++ [Event.sleepMid] ++
        [Event.ext (hostUpCmd nm)] ++ [Event.sleepBetween]) = extCount tr + 2 := by
      simp [extCount, List.countP_append, isExtEvent]
    rw [ih k' _ (by omega) (by omega)
      (by intro n hn; exact hok n (by rw [e2] at hn; omega))
      (by rw [e2]; have : extCount tr + 2 + 2 * m = extCount tr + 2 * (m + 1) := by omega
          rw [this]; exact hf)]
    simp [okFullCyclesHost]

theorem flap_host_go_fail_resume (W : Nat → CmdOutcome) (nm e : String) (count : Nat) :
    ∀ m, ∀ k tr, m < k → k ≤ count →
      (∀ n, n < extCount tr + 2 * m + 1 → W n = CmdOutcome.ok) →
      W (extCount tr + 2 * m + 1) = CmdOutcome.cpe e →
      flap_host_go W nm count k tr =
        (Except.ok (false, host_flap_resume_fail_msg nm),
         tr ++ okFullCyclesHost nm m ++
           [Event.ext (hostDownCmd nm), Event.sleepMid, Event.ext (hostUpCmd nm)]) := by
  intro m
  induction m with
  | zero =>
    intro k tr hmk hkc hok hf
    obtain ⟨k', rfl⟩ : ∃ k', k = k' + 1 := ⟨k - 1, by omega⟩
    have hs : W (extCount tr) = CmdOutcome.ok := hok _ (by omega)
    simp only [flap_host_go, suspend_interface_apply, hs]
    have e1 : extCount (tr ++ [Event.ext (hostDownCmd nm)] ++ [Event.sleepMid]) =
        extCount tr + 1 := by
      simp [extCount, List.countP_append, isExtEvent]
    simp only [resume_interface_apply, e1]
    have hf0 : W (extCount tr + 1) = CmdOutcome.cpe e := by simpa using hf
    simp only [hf0]
    simp [okFullCyclesHost]
  | succ m ih =>
    intro k tr hmk hkc hok hf
    obtain ⟨k', rfl⟩ : ∃ k', k = k' + 1 := ⟨k - 1, by omega⟩
    have hs : W (extCount tr) = CmdOutcome.ok := hok _ (by omega)
    simp only [flap_host_go, suspend_interface_apply, hs]
    have e1 : extCount (tr ++ [Event.ext (hostDownCmd nm)] ++ [Event.sleepMid]) =
        extCount tr + 1 := by
      simp [extCount, List.countP_append, isExtEvent]
    simp only [resume_interface_apply, e1]
    have hr : W (extCount tr + 1) = CmdOutcome.ok := hok _ (by omega)
    simp only [hr]
    have hlt : count - (k' + 1) < count - 1 := by omega
    rw [if_pos hlt]
    have e2 : extCount (tr ++ [Event.ext (hostDownCmd nm)] ++ [Event.sleepMid] ++
        [Event.ext (hostUpCmd nm)] ++ [Event.sleepBetween]) = extCount tr + 2 := by
      simp [extCount, List.countP_append, isExtEvent]
    rw [ih k' _ (by omega) (by omega)
      (by intro n hn; exact hok n (by rw [e2] at hn; omega))
      (by rw [e2]; have : extCount tr + 2 + 2 * m + 1 = extCount tr + 2 * (m + 1) + 1 := by omega
          rw [this]; exact hf)]
    simp [okFullCyclesHost]

theorem flapOkEventsHost_counts (nm : String) (N : Nat) :
    extCount (flapOkEventsHost nm N) = 2 * N ∧
    midCount (flapOkEventsHost nm N) = N ∧
    betweenCount (flapOkEventsHost nm N) = N - 1 := by
  induction N with
  | zero => simp [flapOkEventsHost, extCount, midCount, betweenCount]
  | succ N ih =>
    obtain ⟨h1, h2, h3⟩ := ih
    simp only [extCount, midCount, betweenCount] at h1 h2 h3
    by_cases hN : 1 ≤ N <;>
      refine ⟨?_, ?_, ?_⟩ <;>
        simp [flapOkEventsHost, extCount, midCount, betweenCount, List.countP_append,
              List.countP_cons, isExtEvent, isMidSleep, isBetweenSleep, hN, h1, h2, h3] <;>
        omega

theorem okFullCyclesHost_ext (nm : String) (m : Nat) :
    extCount (okFullCyclesHost nm m) = 2 * m := by
  induction m with
  | zero => simp [okFullCyclesHost, extCount]
  | succ m ih =>
    simp only [extCount] at ih
    simp [okFullCyclesHost, extCount, List.countP_append, List.countP_cons, isExtEvent, ih]
    omega

/-- World oracle whose j-th external command fails with a non-zero exit
status and whose other commands succeed. -/
def failAt (j : Nat) (e : String) : Nat → CmdOutcome :=
  fun n => if n = j then CmdOutcome.cpe e else CmdOutcome.ok

/-- C4 (amended): for every count N ≥ 1, a flap sequence in which all steps
succeed performs exactly 2N endpoint transitions (N suspends, N resumes)
with exactly N mid-pair delays (between a suspend and its resume) and N-1
between-pair delays (between cycles, none after the final resume); and if
cycle k (1 ≤ k ≤ N) fails partway it stops after exactly k×2 - 1
transitions when the suspend fails and k×2 when the resume fails.  Both the
EVE-NG and the host flap sequencers are covered. -/
theorem flap_counts_amended (lab dev ifc delay nm e : String) (N k : Nat)
    (hN : 1 ≤ N) (hk1 : 1 ≤ k) (hkN : k ≤ N) :
    (flap_eveng_interface (fun _ => CmdOutcome.ok) lab dev ifc N delay false [] =
        (Except.ok (true, flap_ok_msg dev ifc N delay), flapOkEvents lab dev ifc N) ∧
      extCount (flapOkEvents lab dev ifc N) = 2 * N ∧
      midCount (flapOkEvents lab dev ifc N) = N ∧
      betweenCount (flapOkEvents lab dev ifc N) = N - 1) ∧
    (flap_interface (fun _ => CmdOutcome.ok) nm N [] =
        (Except.ok (true, host_flap_ok_msg nm N), flapOkEventsHost nm N) ∧
      extCount (flapOkEventsHost nm N) = 2 * N ∧
      midCount (flapOkEventsHost nm N) = N ∧
      betweenCount (flapOkEventsHost nm N) = N - 1) ∧
    (flap_eveng_interface (failAt (2 * (k - 1)) e) lab dev ifc N delay false [] =
        (Except.ok (false, flap_suspend_fail_msg dev ifc (suspend_err_msg e)),
         okFullCycles lab dev ifc (k - 1) ++ [Event.ext (suspendCmd lab dev ifc)]) ∧
      extCount (okFullCycles lab dev ifc (k - 1) ++ [Event.ext (suspendCmd lab dev ifc)]) =
        2 * k - 1) ∧
    (flap_eveng_interface (failAt (2 * k - 1) e) lab dev ifc N delay false [] =
        (Except.ok (false, flap_resume_fail_msg dev ifc (resume_err_msg e)),
         okFullCycles lab dev ifc (k - 1) ++
           [Event.ext (suspendCmd lab dev ifc), Event.sleepMid,
            Event.ext (resumeCmd lab dev ifc)]) ∧
      extCount (okFullCycles lab dev ifc (k - 1) ++
          [Event.ext (suspendCmd lab dev ifc), Event.sleepMid,
           Event.ext (resumeCmd lab dev ifc)]) = 2 * k) := by
  refine ⟨⟨?_, (flapOkEvents_counts lab dev ifc N).1, (flapOkEvents_counts lab dev ifc N).2.1,
            (flapOkEvents_counts lab dev ifc N).2.2⟩,
          ⟨?_, (flapOkEventsHost_counts nm N).1, (flapOkEventsHost_counts nm N).2.1,
            (flapOkEventsHost_counts nm N).2.2⟩,
          ⟨?_, ?_⟩, ⟨?_, ?_⟩⟩
  · rw [flap_eveng_interface, flap_eveng_go_allok lab dev ifc delay N N le_rfl []]
    simp
  · rw [flap_interface, flap_host_go_allok nm N N le_rfl []]
    simp
  · rw [flap_eveng_interface,
      flap_eveng_go_fail_suspend (failAt (2 * (k - 1)) e) lab dev ifc delay e N (k - 1) N []
        (by omega) le_rfl
        (by intro n hn; simp [extCount] at hn; simp only [failAt]; rw [if_neg (by omega)])
        (by simp [extCount, failAt])]
    simp
  · rw [extCount_append2, okFullCycles_ext]
    simp [extCount, isExtEvent]
    omega
  · rw [flap_eveng_interface,
      flap_eveng_go_fail_resume (failAt (2 * k - 1) e) lab dev ifc delay e N (k - 1) N []
        (by omega) le_rfl
        (by intro n hn; simp [extCount] at hn; simp only [failAt]; rw [if_neg (by omega)])
        (by simp only [extCount, List.countP_nil, failAt, Nat.zero_add]
            rw [if_pos (by omega)])]
    simp
  · rw [extCount_append2, okFullCycles_ext]
    simp [extCount, isExtEvent]
    omega

/-- C4 counterexample: a 1-cycle all-success flap produces one mid-pair
delay and zero between-pair delays, while the claim predicts N-1 = 0
mid-pair and N = 1 between-pair delays. -/
theorem flap_delay_allocation_cex :
    flap_eveng_interface (fun _ => CmdOutcome.ok) "lab" "1" "0" 1 "1.0" false [] =
      (Except.ok (true, flap_ok_msg "1" "0" 1 "1.0"),
       [Event.ext (suspendCmd "lab" "1" "0"), Event.sleepMid,
        Event.ext (resumeCmd "lab" "1" "0")]) ∧
    midCount [Event.ext (suspendCmd "lab" "1" "0"), Event.sleepMid,
        Event.ext (resumeCmd "lab" "1" "0")] = 1 ∧
    betweenCount [Event.ext (suspendCmd "lab" "1" "0"), Event.sleepMid,
        Event.ext (resumeCmd "lab" "1" "0")] = 0 ∧
    ¬ (midCount [Event.ext (suspendCmd "lab" "1" "0"), Event.sleepMid,
          Event.ext (resumeCmd "lab" "1" "0")] = 1 - 1 ∧
       betweenCount [Event.ext (suspendCmd "lab" "1" "0"), Event.sleepMid,
          Event.ext (resumeCmd "lab" "1" "0")] = 1) :=
  ⟨rfl, rfl, rfl, by decide⟩

/-- Witness for C4 at count 2, failing cycle 2. -/
theorem flap_counts_amended_witness :
    (flap_eveng_interface (fun _ => CmdOutcome.ok) "lab" "1" "0" 2 "1.0" false [] =
        (Except.ok (true, flap_ok_msg "1" "0" 2 "1.0"), flapOkEvents "lab" "1" "0" 2) ∧
      extCount (flapOkEvents "lab" "1" "0" 2) = 2 * 2 ∧
      midCount (flapOkEvents "lab" "1" "0" 2) = 2 ∧
      betweenCount (flapOkEvents "lab" "1" "0" 2) = 2 - 1) ∧
    (flap_interface (fun _ => CmdOutcome.ok) "eth0" 2 [] =
        (Except.ok (true, host_flap_ok_msg "eth0" 2), flapOkEventsHost "eth0" 2) ∧
      extCount (flapOkEventsHost "eth0" 2) = 2 * 2 ∧
      midCount (flapOkEventsHost "eth0" 2) = 2 ∧
      betweenCount (flapOkEventsHost "eth0" 2) = 2 - 1) ∧
    (flap_eveng_interface (failAt (2 * (2 - 1)) "boom") "lab" "1" "0" 2 "1.0" false [] =
        (Except.ok (false, flap_suspend_fail_msg "1" "0" (suspend_err_msg "boom")),
         okFullCycles "lab" "1" "0" (2 - 1) ++ [Event.ext (suspendCmd "lab" "1" "0")]) ∧
      extCount (okFullCycles "lab" "1" "0" (2 - 1) ++ [Event.ext (suspendCmd "lab" "1" "0")]) =
        2 * 2 - 1) ∧
    (flap_eveng_interface (failAt (2 * 2 - 1) "boom") "lab" "1" "0" 2 "1.0" false [] =
        (Except.ok (false, flap_resume_fail_msg "1" "0" (resume_err_msg "boom")),
         okFullCycles "lab" "1" "0" (2 - 1) ++
           [Event.ext (suspendCmd "lab" "1" "0"), Event.sleepMid,
            Event.ext (resumeCmd "lab" "1" "0")]) ∧
      extCount (okFullCycles "lab" "1" "0" (2 - 1) ++
          [Event.ext (suspendCmd "lab" "1" "0"), Event.sleepMid,
           Event.ext (resumeCmd "lab" "1" "0")]) = 2 * 2) :=
  flap_counts_amended "lab" "1" "0" "1.0" "eth0" "boom" 2 2 (by decide) (by decide) (by decide)

/-- C5: whenever the suspend (resp. resume) step of cycle m+1 is the first
failing step, the flap sequence stops right at that step — the trace ends
with the failing command, with no later transition or sleep — and returns
success=false carrying that step's failure message, even though the m
earlier cycles succeeded.  Both flap sequencers are covered. -/
theorem flap_failure_terminal (lab dev ifc delay nm e1 e2 e3 e4 : String) (N m : Nat)
    (W1 W2 W3 W4 : Nat → CmdOutcome)
    (hm : m < N)
    (h1ok : ∀ n, n < 2 * m → W1 n = CmdOutcome.ok)
    (h1f : W1 (2 * m) = CmdOutcome.cpe e1)
    (h2ok : ∀ n, n < 2 * m + 1 → W2 n = CmdOutcome.ok)
    (h2f : W2 (2 * m + 1) = CmdOutcome.cpe e2)
    (h3ok : ∀ n, n < 2 * m → W3 n = CmdOutcome.ok)
    (h3f : W3 (2 * m) = CmdOutcome.cpe e3)
    (h4ok : ∀ n, n < 2 * m + 1 → W4 n = CmdOutcome.ok)
    (h4f : W4 (2 * m + 1) = CmdOutcome.cpe e4) :
    flap_eveng_interface W1 lab dev ifc N delay false [] =
      (Except.ok (false, flap_suspend_fail_msg dev ifc (suspend_err_msg e1)),
       okFullCycles lab dev ifc m ++ [Event.ext (suspendCmd lab dev ifc)]) ∧
    flap_eveng_interface W2 lab dev ifc N delay false [] =
      (Except.ok (false, flap_resume_fail_msg dev ifc (resume_err_msg e2)),
       okFullCycles lab dev ifc m ++
         [Event.ext (suspendCmd lab dev ifc), Event.sleepMid,
          Event.ext (resumeCmd lab dev ifc)]) ∧
    flap_interface W3 nm N [] =
      (Except.ok (false, host_flap_suspend_fail_msg nm),
       okFullCyclesHost nm m ++ [Event.ext (hostDownCmd nm)]) ∧
    flap_interface W4 nm N [] =
      (Except.ok (false, host_flap_resume_fail_msg nm),
       okFullCyclesHost nm m ++
         [Event.ext (hostDownCmd nm), Event.sleepMid, Event.ext (hostUpCmd nm)]) := by
  refine ⟨?_, ?_, ?_, ?_⟩
  · rw [flap_eveng_interface,
      flap_eveng_go_fail_suspend W1 lab dev ifc delay e1 N m N [] (by omega) le_rfl
        (by intro n hn; simp [extCount] at hn; exact h1ok n hn)
        (by simp only [extCount, List.countP_nil, Nat.zero_add]; exact h1f)]
    simp
  · rw [flap_eveng_interface,
      flap_eveng_go_fail_resume W2 lab dev ifc delay e2 N m N [] (by omega) le_rfl
        (by intro n hn; simp [extCount] at hn; exact h2ok n hn)
        (by simp only [extCount, List.countP_nil, Nat.zero_add]; exact h2f)]
    simp
  · rw [flap_interface,
      flap_host_go_fail_suspend W3 nm e3 N m N [] (by omega) le_rfl
        (by intro n hn; simp [extCount] at hn; exact h3ok n hn)
        (by simp only [extCount, List.countP_nil, Nat.zero_add]; exact h3f)]
    simp
  · rw [flap_interface,
      flap_host_go_fail_resume W4 nm e4 N m N [] (by omega) le_rfl
        (by intro n hn; simp [extCount] at hn; exact h4ok n hn)
        (by simp only [extCount, List.countP_nil, Nat.zero_add]; exact h4f)]
    simp

/-- Witness for C5, failing in cycle 2 of a 2-cycle flap after a fully
successful first cycle. -/
theorem flap_failure_terminal_witness :
    flap_eveng_interface (failAt 2 "boom") "lab" "1" "0" 2 "1.0" false [] =
      (Except.ok (false, flap_suspend_fail_msg "1" "0" (suspend_err_msg "boom")),
       okFullCycles "lab" "1" "0" 1 ++ [Event.ext (suspendCmd "lab" "1" "0")]) ∧
    flap_eveng_interface (failAt 3 "boom") "lab" "1" "0" 2 "1.0" false [] =
      (Except.ok (false, flap_resume_fail_msg "1" "0" (resume_err_msg "boom")),
       okFullCycles "lab" "1" "0" 1 ++
         [Event.ext (suspendCmd "lab" "1" "0"), Event.sleepMid,
          Event.ext (resumeCmd "lab" "1" "0")]) ∧
    flap_interface (failAt 2 "boom") "eth0" 2 [] =
      (Except.ok (false, host_flap_suspend_fail_msg "eth0"),
       okFullCyclesHost "eth0" 1 ++ [Event.ext (hostDownCmd "eth0")]) ∧
    flap_interface (failAt 3 "boom") "eth0" 2 [] =
      (Except.ok (false, host_flap_resume_fail_msg "eth0"),
       okFullCyclesHost "eth0" 1 ++
         [Event.ext (hostDownCmd "eth0"), Event.sleepMid, Event.ext (hostUpCmd "eth0")]) :=
  flap_failure_terminal "lab" "1" "0" "1.0" "eth0" "boom" "boom" "boom" "boom" 2 1
    (failAt 2 "boom") (failAt 3 "boom") (failAt 2 "boom") (failAt 3 "boom")
    (by decide)
    (by intro n hn; simp only [failAt]; rw [if_neg (by omega)])
    (by simp [failAt])
    (by intro n hn; simp only [failAt]; rw [if_neg (by omega)])
    (by simp [failAt])
    (by intro n hn; simp only [failAt]; rw [if_neg (by omega)])
    (by simp [failAt])
    (by intro n hn; simp only [failAt]; rw [if_neg (by omega)])
    (by simp [failAt])

theorem process_batch_line_badcount (world : Nat → CmdOutcome)
    (nodes : List (String × String))
    (ifacesOf : String → List (String × List (String × IfVal)))
    (operation lab_path : String) (dry_run : Bool) (count : Nat) (delay : String)
    (line : String) (tr : List Event)
    (h4 : (str_split line ',').length ≠ 4) (h2 : (str_split line ',').length ≠ 2) :
    process_batch_line world nodes ifacesOf operation lab_path dry_run count delay line tr =
      (false, tr) := by
  rcases hp : str_split line ',' with _ | ⟨a, _ | ⟨b, _ | ⟨c, _ | ⟨d, _ | ⟨x, t⟩⟩⟩⟩⟩
  · simp [process_batch_line, hp]
  · simp [process_batch_line, hp]
  · rw [hp] at h2; simp at h2
  · simp [process_batch_line, hp]
  · rw [hp] at h4; simp at h4
  · simp [process_batch_line, hp]

theorem batch_skip (world : Nat → CmdOutcome)
    (nodes : List (String × String))
    (ifacesOf : String → List (String × List (String × IfVal)))
    (operation lab_path : String) (dry_run : Bool) (count : Nat) (delay : String)
    (rawLine : String) (rest : List String) (sc fc : Nat) (tr : List Event)
    (h : (str_trim rawLine).data.isEmpty = true ∨ str_starts (str_trim rawLine) "#" = true) :
    process_batch_lines world nodes ifacesOf operation lab_path dry_run count delay
        (rawLine :: rest) sc fc tr =
      process_batch_lines world nodes ifacesOf operation lab_path dry_run count delay
        rest sc fc tr := by
  rcases h with h | h <;> simp [process_batch_lines, h]

theorem batch_bad_line (world : Nat → CmdOutcome)
    (nodes : List (String × String))
    (ifacesOf : String → List (String × List (String × IfVal)))
    (operation lab_path : String) (dry_run : Bool) (count : Nat) (delay : String)
    (rawLine : String) (rest : List String) (sc fc : Nat) (tr : List Event)
    (h0 : (str_trim rawLine).data.isEmpty = false)
    (h1 : str_starts (str_trim rawLine) "#" = false)
    (h4 : (str_split (str_trim rawLine) ',').length ≠ 4)
    (h2 : (str_split (str_trim rawLine) ',').length ≠ 2) :
    process_batch_lines world nodes ifacesOf operation lab_path dry_run count delay
        (rawLine :: rest) sc fc tr =
      process_batch_lines world nodes ifacesOf operation lab_path dry_run count delay
        rest sc (fc + 1) tr := by
  simp only [process_batch_lines, h0, h1, Bool.or_self, Bool.false_or, if_neg]
  rw [process_batch_line_badcount world nodes ifacesOf operation lab_path dry_run count delay
    (str_trim rawLine) tr h4 h2]
  simp

/-- C8: a line that is blank or starts with the comment marker after
stripping is skipped without affecting either counter or the trace, and a
non-skipped line whose comma-split field count is neither 4 nor 2 (for
example 3 fields) increments failure_count by exactly one, invokes no
transition (the trace is unchanged), and does not stop the processing of the
remaining lines. -/
theorem batch_line_classification (world : Nat → CmdOutcome)
    (nodes : List (String × String))
    (ifacesOf : String → List (String × List (String × IfVal)))
    (operation lab_path : String) (dry_run : Bool) (count : Nat) (delay : String)
    (lineA lineB : String) (restA restB : List String) (sc fc : Nat) (tr : List Event)
    (hA : (str_trim lineA).data.isEmpty = true ∨ str_starts (str_trim lineA) "#" = true)
    (hB0 : (str_trim lineB).data.isEmpty = false)
    (hB1 : str_starts (str_trim lineB) "#" = false)
    (hB4 : (str_split (str_trim lineB) ',').length ≠ 4)
    (hB2 : (str_split (str_trim lineB) ',').length ≠ 2) :
    process_batch_lines world nodes ifacesOf operation lab_path dry_run count delay
        (lineA :: restA) sc fc tr =
      process_batch_lines world nodes ifacesOf operation lab_path dry_run count delay
        restA sc fc tr ∧
    process_batch_lines world nodes ifacesOf operation lab_path dry_run count delay
        (lineB :: restB) sc fc tr =
      process_batch_lines world nodes ifacesOf operation lab_path dry_run count delay
        restB sc (fc + 1) tr :=
  ⟨batch_skip world nodes ifacesOf operation lab_path dry_run count delay lineA restA sc fc tr hA,
   batch_bad_line world nodes ifacesOf operation lab_path dry_run count delay lineB restB sc fc tr
     hB0 hB1 hB4 hB2⟩

/-- Witness for C8: a comment line is skipped without touching the counters,
and the 3-field line `a,b,c` increments only the failure counter, adds no
external event, and processing continues with the remaining lines. -/
theorem batch_line_classification_witness :
    process_batch_lines (fun _ => CmdOutcome.ok) [] (fun _ => []) "suspend" "lab" false 1 "1.0"
        ("# comment" :: ["a,b,c,d"]) 0 0 [] =
      process_batch_lines (fun _ => CmdOutcome.ok) [] (fun _ => []) "suspend" "lab" false 1 "1.0"
        ["a,b,c,d"] 0 0 [] ∧
    process_batch_lines (fun _ => CmdOutcome.ok) [] (fun _ => []) "suspend" "lab" false 1 "1.0"
        ("a,b,c" :: ["a,b,c,d"]) 0 0 [] =
      process_batch_lines (fun _ => CmdOutcome.ok) [] (fun _ => []) "suspend" "lab" false 1 "1.0"
        ["a,b,c,d"] 0 (0 + 1) [] :=
  batch_line_classification (fun _ => CmdOutcome.ok) [] (fun _ => []) "suspend" "lab" false 1 "1.0"
    "# comment" "a,b,c" ["a,b,c,d"] ["a,b,c,d"] 0 0 []
    (by decide) (by decide) (by decide) (by decide) (by decide)

/-- C10: a missing batch file, and an operation outside
suspend/resume/flap, each make `process_batch_file` return the outcome
`(0, 0)` without processing any line — the very outcome a successfully
processed batch of only skipped lines produces — and the exit rule maps a
zero failure count to the success return. -/
theorem batch_missing_file_outcome (world : Nat → CmdOutcome)
    (nodes : List (String × String))
    (ifacesOf : String → List (String × List (String × IfVal)))
    (file_lines skipLines : List String)
    (operation lab_path : String) (dry_run : Bool) (count : Nat) (delay : String)
    (tr : List Event)
    (hop : (strEq operation "suspend" || strEq operation "resume" || strEq operation "flap") = false)
    (hskip : ∀ l ∈ skipLines,
      (str_trim l).data.isEmpty = true ∨ str_starts (str_trim l) "#" = true) :
    process_batch_file world nodes ifacesOf false file_lines operation lab_path dry_run count delay tr =
      ((0, 0), tr) ∧
    process_batch_file world nodes ifacesOf true file_lines operation lab_path dry_run count delay tr =
      ((0, 0), tr) ∧
    process_batch_file world nodes ifacesOf true skipLines "suspend" lab_path dry_run count delay tr =
      ((0, 0), tr) ∧
    main_batch_return 0 = none := by
  refine ⟨rfl, ?_, ?_, rfl⟩
  · simp [process_batch_file, hop]
  · simp only [process_batch_file, Bool.not_true, Bool.false_eq_true, if_false]
    have hsusp : (strEq "suspend" "suspend" || strEq "suspend" "resume" || strEq "suspend" "flap") = true := by
      decide
    rw [if_neg (by simp [hsusp])]
    induction skipLines with
    | nil => rfl
    | cons l ls ih =>
      rw [batch_skip world nodes ifacesOf "suspend" lab_path dry_run count delay l ls 0 0 tr
        (hskip l (List.mem_cons_self l ls))]
      exact ih (fun x hx => hskip x (List.mem_cons_of_mem l hx))

/-- Witness for C10: a missing file, an invalid operation `frobnicate`, and a
file of only comment and blank lines all yield the outcome `(0, 0)`, which
the exit rule maps to success. -/
theorem batch_missing_file_outcome_witness :
    process_batch_file (fun _ => CmdOutcome.ok) [] (fun _ => []) false ["a,b,c,d"] "frobnicate"
        "lab" false 1 "1.0" [] = ((0, 0), []) ∧
    process_batch_file (fun _ => CmdOutcome.ok) [] (fun _ => []) true ["a,b,c,d"] "frobnicate"
        "lab" false 1 "1.0" [] = ((0, 0), []) ∧
    process_batch_file (fun _ => CmdOutcome.ok) [] (fun _ => []) true ["# a", "", "  "] "suspend"
        "lab" false 1 "1.0" [] = ((0, 0), []) ∧
    main_batch_return 0 = none :=
  batch_missing_file_outcome (fun _ => CmdOutcome.ok) [] (fun _ => []) ["a,b,c,d"]
    ["# a", "", "  "] "frobnicate" "lab" false 1 "1.0" [] (by decide) (by decide)
